import Mathlib

/-!
# Verification of the fertilizer-predictor core against its specification

This file shallowly embeds the core of `src/fertilizer_predictor.py`:

* `SoilClassifier.classify_property` / `SoilClassifier.classify_soil_data`
  (pure classification of soil-property values against fixed thresholds), and
* `SoilDataFetcher.authenticate` / `SoilDataFetcher.fetch_soil_properties`
  (the token-lifecycle-aware HTTP client, modelled over an explicit network
  environment that supplies the responses of the at-most-three HTTP calls a
  single `fetch_soil_properties` invocation can make).

Python dynamic values are modelled by the JSON-like type `PyVal`; Python
numbers are modelled exactly: `int` by `Int`, `float` by `Rat` (finite IEEE
doubles embed order-faithfully into `ℚ`; the non-finite values `inf`/`nan`
are outside the model and no theorem below depends on them).  Fallible
Python operations return `Except PyErr _`, where a `.error` value models an
exception raised at that point of the original program.
-/

/-- The Python exception classes that the embedded code can raise.  The
`try/except` clauses of the source catch specific classes, so the class
matters, not just the fact that something was raised. -/
inductive PyErr where
  | typeError
  | valueError
  | keyError
  | indexError
  | attributeError
  | overflowError
deriving DecidableEq

/-- JSON-like Python values: `None`, booleans, integers, (finite) floats,
strings, lists and string-keyed dicts.  This is the value universe that
`json.loads` can produce, which is what flows through the classifier. -/
inductive PyVal where
  | none : PyVal
  | bool : Bool → PyVal
  | int : Int → PyVal
  | float : Rat → PyVal
  | str : String → PyVal
  | list : List PyVal → PyVal
  | dict : List (String × PyVal) → PyVal

/-- First-occurrence lookup in an association list; models lookup in a
Python dict (whose keys are unique, so "first occurrence" is exact). -/
def pyLookup {α : Type} : List (String × α) → String → Option α
  | [], _ => Option.none
  | (k', v) :: rest, k => if k' = k then some v else pyLookup rest k

/-- Python `d.get(k, default)` on a dict. -/
def dictGetD (kvs : List (String × PyVal)) (k : String) (default : PyVal) : PyVal :=
  (pyLookup kvs k).getD default

/-- Python truthiness (`bool(v)`) for the modelled values. -/
def pyTruthy : PyVal → Bool
  | .none => false
  | .bool b => b
  | .int i => if i = 0 then false else true
  | .float q => if q = 0 then false else true
  | .str s => if s.length = 0 then false else true
  | .list xs => if xs.length = 0 then false else true
  | .dict kvs => if kvs.length = 0 then false else true

/-- Python `len(v)`: defined on strings, lists and dicts; `TypeError`
otherwise. -/
def pyLen : PyVal → Except PyErr Nat
  | .str s => .ok s.length
  | .list xs => .ok xs.length
  | .dict kvs => .ok kvs.length
  | _ => .error .typeError

/-- `needle` is a prefix of `hay` (on character lists). -/
def charsPrefix : List Char → List Char → Bool
  | [], _ => true
  | _ :: _, [] => false
  | a :: as, b :: bs => a == b && charsPrefix as bs

/-- `needle` occurs somewhere in `hay` (on character lists). -/
def charsContains : List Char → List Char → Bool
  | [], needle => needle.isEmpty
  | c :: rest, needle => charsPrefix needle (c :: rest) || charsContains rest needle

/-- Substring test, modelling Python `needle in haystack` on strings. -/
def strContains (hay needle : String) : Bool :=
  charsContains hay.data needle.data

/-- Python `key in container` for a string `key`: key membership on dicts,
element equality on lists, substring test on strings, `TypeError` on
non-containers. -/
def pyContains (container : PyVal) (key : String) : Except PyErr Bool :=
  match container with
  | .dict kvs => .ok (pyLookup kvs key).isSome
  | .list xs => .ok (xs.any fun v => match v with | .str s => s == key | _ => false)
  | .str s => .ok (strContains s key)
  | _ => .error .typeError

/-- Python subscription `container[key]` with a string key: dict lookup
(`KeyError` when absent); `TypeError` on lists, strings and
non-subscriptables. -/
def pySubscriptS : PyVal → String → Except PyErr PyVal
  | .dict kvs, k =>
    match pyLookup kvs k with
    | some v => .ok v
    | Option.none => .error .keyError
  | _, _ => .error .typeError

/-- Python subscription `container[i]` with a natural index: list/str
indexing (`IndexError` out of range); on a string-keyed dict an integer key
is absent, hence `KeyError`; `TypeError` on non-subscriptables. -/
def pySubscriptN : PyVal → Nat → Except PyErr PyVal
  | .list xs, i =>
    match xs.get? i with
    | some v => .ok v
    | Option.none => .error .indexError
  | .str s, i =>
    match s.data.get? i with
    | some c => .ok (.str (String.mk [c]))
    | Option.none => .error .indexError
  | .dict _, _ => .error .keyError
  | _, _ => .error .typeError

/-- ASCII lower-casing of one character, as done by `str.lower()` on the
ASCII property names this program uses. -/
def asciiLowerChar (c : Char) : Char :=
  if h : 65 ≤ c.toNat ∧ c.toNat ≤ 90 then
    Char.ofNatAux (c.toNat + 32) (Or.inl (by omega))
  else c

/-- Python `s.lower()` (restricted to the ASCII case mapping; the threshold
keys of this program are pure ASCII). -/
def pyLower (s : String) : String :=
  String.mk (s.data.map asciiLowerChar)

/-- Decimal value of a digit list. -/
def digitsVal (cs : List Char) : Nat :=
  cs.foldl (fun a c => a * 10 + (c.toNat - 48)) 0

/-- All characters are ASCII digits (vacuously true on `[]`). -/
def allDigits (cs : List Char) : Bool :=
  cs.all Char.isDigit

/-- Unsigned part of a decimal float literal: integral digits, then an
optional dot followed by fractional digits; at least one digit overall. -/
def parseUnsigned (cs : List Char) : Option Rat :=
  let intPart := cs.takeWhile (fun c => c != '.')
  let rest := cs.dropWhile (fun c => c != '.')
  match rest with
  | [] =>
    if 0 < intPart.length ∧ allDigits intPart then some (mkRat (digitsVal intPart) 1)
    else Option.none
  | _ :: frac =>
    if (0 < intPart.length ∨ 0 < frac.length) ∧ allDigits intPart ∧ allDigits frac then
      some (mkRat (digitsVal intPart) 1 + mkRat (digitsVal frac) (Nat.pow 10 frac.length))
    else Option.none

/-- Model of Python `float(s)` on a string, for finite plain decimal
literals: optional sign, integral digits, optional fractional digits
(`"5"`, `"5."`, `".5"`, `"-2.75"`).  Exponents, `inf`/`nan` and exotic
spellings are out of model; no claim below depends on them, only on the
success/failure split for the concrete strings used. -/
def parseFloat (s : String) : Option Rat :=
  match s.data with
  | '-' :: rest => (parseUnsigned rest).map (fun q => -q)
  | '+' :: rest => parseUnsigned rest
  | cs => parseUnsigned cs

/-- The least magnitude at which CPython `float(int)` overflows: integers
whose absolute value rounds (to nearest, ties to even) to `2^1024` or above
do not fit in an IEEE double and raise `OverflowError`.  The largest finite
double is `(2^53 - 1) * 2^971` and the rounding boundary above it is
`2^1024 - 2^970` (written with shifts so that it evaluates). -/
def floatOverflowBound : Nat := 1 <<< 1024 - 1 <<< 970

/-- Model of Python `float(value)`: exact on bools, in-range ints and
(finite) floats; `OverflowError` on out-of-range ints; string parsing via
`parseFloat` (`ValueError` on failure); `TypeError` on `None`, lists and
dicts. -/
def pyFloat : PyVal → Except PyErr Rat
  | .none => .error .typeError
  | .bool b => .ok (if b then 1 else 0)
  | .int i =>
    if i.natAbs < floatOverflowBound then .ok (mkRat i 1) else .error .overflowError
  | .float q => .ok q
  | .str s =>
    match parseFloat s with
    | some q => .ok q
    | Option.none => .error .valueError
  | .list _ => .error .typeError
  | .dict _ => .error .typeError

/-- `SoilClassifier.THRESHOLDS`: property name ↦ (low, high) threshold pair,
exactly the four entries of the source (1.5/5.0, 10/50, 39/195, 5.3/7.3),
written as exact rationals. -/
def THRESHOLDS : List (String × Rat × Rat) :=
  [("nitrogen", mkRat 3 2, mkRat 5 1),
   ("phosphorus", mkRat 10 1, mkRat 50 1),
   ("potassium", mkRat 39 1, mkRat 195 1),
   ("ph", mkRat 53 10, mkRat 73 10)]

/-- `SoilClassifier.classify_property(value, property_name)`:
lower-case the name and look it up in `THRESHOLDS` (`"Unknown"` when absent,
matching `if not thresholds`); coerce the value with `float(...)`, turning
`TypeError`/`ValueError` into `"Unknown"` (the source catches exactly these
two classes, so every other exception — e.g. `OverflowError` — propagates);
then bucket by `v <= low` / `v <= high` / otherwise. -/
def classify_property (value : PyVal) (property_name : String) : Except PyErr String :=
  match pyLookup THRESHOLDS (pyLower property_name) with
  | Option.none => .ok "Unknown"
  | some (low, high) =>
    match pyFloat value with
    | .error PyErr.typeError => .ok "Unknown"
    | .error PyErr.valueError => .ok "Unknown"
    | .error e => .error e
    | .ok v => .ok (if v ≤ low then "Low" else if v ≤ high then "Moderate" else "High")

/-- The fixed `property_mapping` of `classify_soil_data`: raw API field
name ↦ canonical classification name, in source order. -/
def property_mapping : List (String × String) :=
  [("nitrogen_total", "nitrogen"),
   ("phosphorous_extractable", "phosphorus"),
   ("potassium_extractable", "potassium"),
   ("ph", "ph")]

/-- `property_data[0]["value"]["value"]`: the nested extraction of the
scalar measurement from the first record (the record itself is the input
here; the `[0]` step is done by the caller). -/
def extractVal (r0 : PyVal) : Except PyErr PyVal :=
  match pySubscriptS r0 "value" with
  | .error e => .error e
  | .ok v1 => pySubscriptS v1 "value"

/-- One iteration of the `classify_soil_data` loop, for a single
`(api_field, class_name)` pair: membership test on the property dict,
truthiness-and-length guard, extraction of the first record's nested value,
classification, and the entry written into `classified` (or `none` when the
field is skipped).  Any exception short-circuits, as in the source, where
no `try` surrounds the loop. -/
def classifyField (prop : PyVal) (api_field class_name : String) :
    Except PyErr (Option (String × PyVal)) :=
  match pyContains prop api_field with
  | .error e => .error e
  | .ok false => .ok Option.none
  | .ok true =>
    match pySubscriptS prop api_field with
    | .error e => .error e
    | .ok property_data =>
      if pyTruthy property_data then
        match pyLen property_data with
        | .error e => .error e
        | .ok n =>
          if 0 < n then
            match pySubscriptN property_data 0 with
            | .error e => .error e
            | .ok r0 =>
              match extractVal r0 with
              | .error e => .error e
              | .ok value =>
                match classify_property value class_name with
                | .error e => .error e
                | .ok cl =>
                  .ok (some (class_name,
                    PyVal.dict [("value", value), ("classification", PyVal.str cl)]))
          else .ok Option.none
      else .ok Option.none

/-- The `classify_soil_data` loop over (a suffix of) `property_mapping`,
accumulating the produced entries in iteration order (Python dicts preserve
insertion order). -/
def classifyFields (prop : PyVal) : List (String × String) → Except PyErr (List (String × PyVal))
  | [] => .ok []
  | (api_field, class_name) :: rest =>
    match classifyField prop api_field class_name with
    | .error e => .error e
    | .ok r =>
      match classifyFields prop rest with
      | .error e => .error e
      | .ok others => .ok (r.toList ++ others)

/-- `SoilClassifier.classify_soil_data(soil_data)`: reads
`soil_data.get("property", {})` (an `AttributeError` if `soil_data` is not
a dict) and runs the classification loop over `property_mapping`. -/
def classify_soil_data : PyVal → Except PyErr (List (String × PyVal))
  | .dict kvs => classifyFields (dictGetD kvs "property" (.dict [])) property_mapping
  | _ => .error .attributeError

/-- The raw API field names consulted by `classify_soil_data`. -/
def rawFields : List String := property_mapping.map Prod.fst

/-- The canonical property names that can appear in a classified profile. -/
def canonicalNames : List String := property_mapping.map Prod.snd

/-- The value does not make `float(...)` raise `OverflowError` (it may
still fail with `TypeError`/`ValueError`, which `classify_property`
swallows into `Unknown`). -/
def floatNoOverflow (v : PyVal) : Bool :=
  match pyFloat v with
  | .error .overflowError => false
  | _ => true

/-- A mapped field's value is benign for `classify_soil_data`: a list that
is either empty or whose first record carries the expected nested
`["value"]["value"]` structure with an overflow-free scalar. -/
def goodRecords : PyVal → Bool
  | .list [] => true
  | .list (r0 :: _) =>
    match r0 with
    | .dict kvs =>
      match pyLookup kvs "value" with
      | some (.dict kvs2) =>
        match pyLookup kvs2 "value" with
        | some v => floatNoOverflow v
        | Option.none => false
      | _ => false
    | _ => false
  | _ => false

/-- Payloads on which `classify_soil_data` is guaranteed not to raise: a
dict whose `"property"` entry, when present, is a dict in which each of the
four consulted raw fields is either absent or `goodRecords`. -/
def wellFormedPayload : PyVal → Bool
  | .dict kvs =>
    match pyLookup kvs "property" with
    | Option.none => true
    | some (.dict pkvs) =>
      rawFields.all fun f =>
        match pyLookup pkvs f with
        | Option.none => true
        | some pv => goodRecords pv
    | some _ => false
  | _ => false

/-! ## The authenticated soil client

`SoilDataFetcher` holds mutable session state (`access_token`,
`token_expiry`).  A single `fetch_soil_properties` call performs at most
three HTTP requests: a first GET, possibly one login POST (inside
`authenticate`), and possibly one retried GET.  The network is modelled by
a `NetEnv` supplying the outcome of each of those three request slots, and
the embedding additionally returns the trace of issued requests and of
`print` diagnostics, so that temporal claims ("called exactly once",
"no second GET") are statements about the trace. -/

/-- The session state of `SoilDataFetcher`: `access_token` starts as `None`
and is whatever `token_data.get("access_token")` produced after a
successful login (hence a `PyVal`, not necessarily a string);
`token_expiry` starts as `None`. -/
structure Session where
  access_token : PyVal
  token_expiry : Option Rat

/-- The outcome of one HTTP request that did not raise in transport:
a status code and the result of `response.json()` (`Option.none` models a
body that is not valid JSON, so `.json()` raises). -/
structure HttpResponse where
  status : Nat
  jsonBody : Option PyVal

/-- The outcome of one HTTP request slot: either the request call itself
raised a `requests.exceptions.RequestException` (connection error,
timeout, ...), or a response came back. -/
inductive HttpResult where
  | transportErr : HttpResult
  | resp : HttpResponse → HttpResult

/-- The network environment of one `fetch_soil_properties` invocation:
responses for the login POST, the first soil GET and the retried soil GET
(slots that the control flow never reaches are simply unused). -/
structure NetEnv where
  loginResult : HttpResult
  getResult1 : HttpResult
  getResult2 : HttpResult

/-- The fixed service endpoints of the source. -/
def base_url : String := "https://api.isda-africa.com"

def login_url : String := base_url ++ "/login"

def soil_url : String := base_url ++ "/isdasoil/v2/soilproperty"

/-- One issued HTTP request, as recorded in the trace: the login POST, or a
soil GET with its query parameters (`lon`, `lat`, `depth`) and the token
attached via `_get_headers()` (`Authorization: Bearer {token}`). -/
inductive Event where
  | postLogin : Event
  | getSoil : String → Rat → Rat → String → PyVal → Event

/-- `requests.Response.raise_for_status()` raises `HTTPError` (a
`RequestException`) exactly for 4xx/5xx status codes. -/
def raiseForStatus (r : HttpResponse) : Bool :=
  decide (400 ≤ r.status ∧ r.status < 600)

/-- The result of a call to `authenticate`: the requests it issued, its
`print` output, the session state afterwards, and either the returned
boolean or a propagated exception. -/
structure AuthOut where
  events : List Event
  prints : List String
  session : Session
  success : Except PyErr Bool

/-- `SoilDataFetcher.authenticate()` over a login response environment.
It POSTs to `/login`; a transport error, a 4xx/5xx status
(`raise_for_status`) or an unparseable JSON body each raise a
`RequestException` subclass that the source catches, printing a diagnostic
and returning `False` with the session untouched.  On a parsed JSON object
it stores `token_data.get("access_token")` (which is `None` when the field
is missing) and `now + 3600` as expiry and returns `True`.  A parsed JSON
body that is not an object makes `token_data.get` raise `AttributeError`,
which the `except requests.exceptions.RequestException` clause does not
catch. -/
def authenticate (login : HttpResult) (now : Rat) (s : Session) : AuthOut :=
  match login with
  | .transportErr =>
    ⟨[.postLogin], ["Authentication failed: request error"], s, .ok false⟩
  | .resp r =>
    if raiseForStatus r then
      ⟨[.postLogin], ["Authentication failed: http error"], s, .ok false⟩
    else
      match r.jsonBody with
      | Option.none =>
        ⟨[.postLogin], ["Authentication failed: invalid json body"], s, .ok false⟩
      | some (.dict kvs) =>
        ⟨[.postLogin], ["Successfully authenticated with iSDAsoil API"],
          ⟨dictGetD kvs "access_token" .none, some (now + 3600)⟩, .ok true⟩
      | some _ => ⟨[.postLogin], [], s, .error .attributeError⟩

/-- `SoilDataFetcher._is_token_valid()`: a token is present and the current
time is at least 300 seconds before expiry.  (Defined for completeness;
`fetch_soil_properties` never consults it.) -/
def is_token_valid (now : Rat) (s : Session) : Bool :=
  match s.access_token, s.token_expiry with
  | .none, _ => false
  | _, Option.none => false
  | _, some expiry => decide (now < expiry - 300)

/-- The result of a call to `fetch_soil_properties`: issued requests,
`print` output, the session afterwards, and either the returned value
(`Option.none` models Python `return None`, `some` the raw payload) or a
propagated exception. -/
structure FetchOut where
  events : List Event
  prints : List String
  session : Session
  result : Except PyErr (Option PyVal)

/-- Shared tail of `fetch_soil_properties`: `raise_for_status()` followed
by `response.json()` on whichever response survived the 401 handling; both
raised exceptions are `RequestException`s, caught by the source's handler,
which prints a diagnostic and returns `None`. -/
def handleFinal (r : HttpResponse) : List String × Except PyErr (Option PyVal) :=
  if raiseForStatus r then
    (["Failed to fetch soil properties: http error"], .ok Option.none)
  else
    match r.jsonBody with
    | Option.none =>
      (["Failed to fetch soil properties: invalid json body"], .ok Option.none)
    | some j =>
      (["Successfully fetched soil data for coordinates"], .ok (some j))

/-- `SoilDataFetcher.fetch_soil_properties(latitude, longitude)`:
issues the first GET with the currently stored token; on a transport error
the exception is caught (diagnostic + `None`).  If the status is exactly
401 it calls `authenticate()` once: on `False` it returns `None`
immediately; on `True` it re-issues the identical GET (same URL and query
parameters, headers recomputed from the refreshed session); an exception
propagating out of `authenticate` is not a `RequestException` and escapes.
The surviving response then goes through `raise_for_status()`/`.json()`
(`handleFinal`). -/
def fetch_soil_properties (env : NetEnv) (now : Rat) (s : Session)
    (latitude longitude : Rat) : FetchOut :=
  let e1 := Event.getSoil soil_url longitude latitude "0-20" s.access_token
  match env.getResult1 with
  | .transportErr =>
    ⟨[e1], ["Failed to fetch soil properties: request error"], s, .ok Option.none⟩
  | .resp r1 =>
    if r1.status = 401 then
      let a := authenticate env.loginResult now s
      match a.success with
      | .error e => ⟨e1 :: a.events, a.prints, a.session, .error e⟩
      | .ok false => ⟨e1 :: a.events, a.prints, a.session, .ok Option.none⟩
      | .ok true =>
        let e2 := Event.getSoil soil_url longitude latitude "0-20" a.session.access_token
        match env.getResult2 with
        | .transportErr =>
          ⟨e1 :: a.events ++ [e2],
            a.prints ++ ["Failed to fetch soil properties: request error"],
            a.session, .ok Option.none⟩
        | .resp r2 =>
          ⟨e1 :: a.events ++ [e2], a.prints ++ (handleFinal r2).1, a.session,
            (handleFinal r2).2⟩
    else
      ⟨[e1], (handleFinal r1).1, s, (handleFinal r1).2⟩

/-- Number of login POSTs in a request trace. -/
def loginCount : List Event → Nat
  | [] => 0
  | .postLogin :: rest => loginCount rest + 1
  | _ :: rest => loginCount rest

/-- The GET requests of a trace, as (url, lon, lat, depth) tuples (the
attached token is deliberately not part of this projection: "identical GET"
in the specification refers to URL and query parameters; headers are
recomputed). -/
def getCalls : List Event → List (String × Rat × Rat × String)
  | [] => []
  | .getSoil url lon lat depth _ :: rest => (url, lon, lat, depth) :: getCalls rest
  | _ :: rest => getCalls rest

/-! ## General theorems and sanity checks -/

theorem floatOverflowBound_eq : floatOverflowBound = 2 ^ 1024 - 2 ^ 970 := by
  rw [floatOverflowBound, Nat.shiftLeft_eq, Nat.shiftLeft_eq, one_mul, one_mul]

example : classify_property (.float 5) "nitrogen" = .ok "Moderate" := by rfl
example : classify_property (.float (mkRat 501 100)) "nitrogen" = .ok "High" := by rfl
example : classify_property (.int 100) "unknown_property" = .ok "Unknown" := by rfl
example : classify_property (.str "not-a-number") "ph" = .ok "Unknown" := by rfl
example : classify_property (.float 3) "Nitrogen" = .ok "Moderate" := by rfl
example :
    classify_soil_data (.dict [("property", .dict
      [("nitrogen_total", .list [.dict [("value", .dict [("value", .float 3)])]]),
       ("phosphorous_extractable", .list [.dict [("value", .dict [("value", .int 60)])]]),
       ("potassium_extractable", .list [.dict [("value", .dict [("value", .int 20)])]]),
       ("ph", .list [.dict [("value", .dict [("value", .float (mkRat 53 10))])]])])]) =
    .ok [("nitrogen", .dict [("value", .float 3), ("classification", .str "Moderate")]),
         ("phosphorus", .dict [("value", .int 60), ("classification", .str "High")]),
         ("potassium", .dict [("value", .int 20), ("classification", .str "Low")]),
         ("ph", .dict [("value", .float (mkRat 53 10)), ("classification", .str "Low")])] := by
  rfl
example :
    classify_soil_data (.dict [("property", .dict
      [("ph", .list [.dict [("value", .dict [])]])])]) = .error .keyError := by rfl

theorem toNat_ofNatAux (n : Nat) (h : n.isValidChar) : (Char.ofNatAux n h).toNat = n := rfl

theorem asciiLowerChar_idem (c : Char) :
    asciiLowerChar (asciiLowerChar c) = asciiLowerChar c := by
  by_cases h : 65 ≤ c.toNat ∧ c.toNat ≤ 90
  · have hinner : asciiLowerChar c = Char.ofNatAux (c.toNat + 32) (Or.inl (by omega)) := by
      rw [asciiLowerChar, dif_pos h]
    rw [hinner, asciiLowerChar, dif_neg]
    rw [toNat_ofNatAux]
    omega
  · have hinner : asciiLowerChar c = c := by rw [asciiLowerChar, dif_neg h]
    rw [hinner, hinner]

theorem pyLower_idem (s : String) : pyLower (pyLower s) = pyLower s := by
  cases s with
  | mk l =>
    show String.mk (List.map asciiLowerChar (List.map asciiLowerChar l)) =
      String.mk (List.map asciiLowerChar l)
    rw [List.map_map]
    have hmap : ∀ l' : List Char,
        List.map (asciiLowerChar ∘ asciiLowerChar) l' = List.map asciiLowerChar l' := by
      intro l'
      induction l' with
      | nil => rfl
      | cons c r ih => simp [Function.comp, asciiLowerChar_idem, ih]
    rw [hmap]

theorem THRESHOLDS_low_lt_high {n : String} {low high : Rat}
    (h : pyLookup THRESHOLDS n = some (low, high)) : low < high := by
  simp only [THRESHOLDS, pyLookup] at h
  split_ifs at h <;>
    simp only [Option.some.injEq, Prod.mk.injEq] at h <;>
    rcases h with ⟨h1, h2⟩ <;> subst h1 <;> subst h2 <;> decide

/-! ## Claims about `classify_property` (C1, C6, C9) -/

/-- C1 (counterexample): the claim promises `High` for every numeric value
strictly above the high threshold, but at the integer `2^1100` (a perfectly
valid Python `int`, far above nitrogen's high threshold of 5.0)
`classify_property` does not return `High`: `float(value)` raises
`OverflowError`, which the `except (TypeError, ValueError)` clause does not
catch, so the call raises instead of returning. -/
theorem C1_counterexample :
    classify_property (.int (Int.ofNat (1 <<< 1100))) "nitrogen" = .error .overflowError ∧
    classify_property (.int (Int.ofNat (1 <<< 1100))) "nitrogen" ≠ .ok "High" ∧
    mkRat 5 1 < mkRat (Int.ofNat (1 <<< 1100)) 1 := by
  refine ⟨by rfl, ?_, by decide⟩
  intro hcontra
  rw [show classify_property (.int (Int.ofNat (1 <<< 1100))) "nitrogen" =
      .error .overflowError from rfl] at hcontra
  exact Except.noConfusion hcontra

/-- C1 (amended): for every recognized property name (one whose lower-cased
form is a key of `THRESHOLDS`) and every value whose `float(...)` coercion
succeeds — every finite float, bool, or int below the float-overflow bound —
the classification is `Low` for values at most the low threshold,
`Moderate` strictly between low and high (inclusive at high), and `High`
strictly above the high threshold; values exactly on a boundary fall in the
lower band.  (Integer values at or beyond the float range raise
`OverflowError` instead, per `C1_counterexample`.) -/
theorem C1_threshold_bands (value : PyVal) (q low high : Rat) (name : String)
    (hlook : pyLookup THRESHOLDS (pyLower name) = some (low, high))
    (hq : pyFloat value = .ok q) :
    (q ≤ low → classify_property value name = .ok "Low") ∧
    (low < q → q ≤ high → classify_property value name = .ok "Moderate") ∧
    (high < q → classify_property value name = .ok "High") := by
  have hlh : low < high := THRESHOLDS_low_lt_high hlook
  simp only [classify_property, hlook, hq]
  refine ⟨fun h1 => ?_, fun h1 h2 => ?_, fun h1 => ?_⟩
  · rw [if_pos h1]
  · rw [if_neg (not_le.mpr h1), if_pos h2]
  · rw [if_neg (not_le.mpr (lt_trans hlh h1)), if_neg (not_le.mpr h1)]

/-- C1 (witness): the claim's own boundary examples, derived from
`C1_threshold_bands`: nitrogen 5.0 is `Moderate` (boundary falls in the
lower band) and nitrogen 5.01 is `High`. -/
theorem C1_threshold_bands_witness :
    classify_property (.float 5) "nitrogen" = .ok "Moderate" ∧
    classify_property (.float (mkRat 501 100)) "nitrogen" = .ok "High" :=
  ⟨(C1_threshold_bands (.float 5) 5 (mkRat 3 2) (mkRat 5 1) "nitrogen"
      (by rfl) (by rfl)).2.1 (by decide) (by decide),
   (C1_threshold_bands (.float (mkRat 501 100)) (mkRat 501 100) (mkRat 3 2) (mkRat 5 1)
      "nitrogen" (by rfl) (by rfl)).2.2 (by decide)⟩

/-- C6 (counterexample): the claim says `classify_property` never raises,
for all inputs; but for the integer value `2^1100` with the recognized name
`"ph"`, `float(value)` raises `OverflowError`, which is not caught by
`except (TypeError, ValueError)`, so the call raises instead of returning
`Unknown` or any other band. -/
theorem C6_counterexample :
    classify_property (.int (Int.ofNat (1 <<< 1100))) "ph" = .error .overflowError := by
  rfl

/-- C6 (amended): `classify_property` returns `Unknown` (normally, without
raising) whenever the lower-cased property name is not a `THRESHOLDS` key,
and whenever the value's `float(...)` coercion fails with `TypeError` or
`ValueError` (non-numeric types, unparseable strings); an integer value too
large for float conversion raises `OverflowError` instead
(`C6_counterexample`). -/
theorem C6_unknown_degradation (value : PyVal) (name : String) :
    (pyLookup THRESHOLDS (pyLower name) = Option.none →
      classify_property value name = .ok "Unknown") ∧
    (pyFloat value = .error .typeError →
      classify_property value name = .ok "Unknown") ∧
    (pyFloat value = .error .valueError →
      classify_property value name = .ok "Unknown") := by
  refine ⟨fun h => ?_, fun h => ?_, fun h => ?_⟩
  · simp only [classify_property, h]
  · cases hl : pyLookup THRESHOLDS (pyLower name) with
    | none => simp only [classify_property, hl]
    | some p =>
      cases p with
      | mk low high => simp only [classify_property, hl, h]
  · cases hl : pyLookup THRESHOLDS (pyLower name) with
    | none => simp only [classify_property, hl]
    | some p =>
      cases p with
      | mk low high => simp only [classify_property, hl, h]

/-- C6 (witness): concrete degradations to `Unknown`, via
`C6_unknown_degradation`: an unrecognized name, an unparseable string, and
a value of non-coercible type (`None`). -/
theorem C6_unknown_degradation_witness :
    classify_property (.int 100) "unknown_property" = .ok "Unknown" ∧
    classify_property (.str "not-a-number") "ph" = .ok "Unknown" ∧
    classify_property .none "ph" = .ok "Unknown" :=
  ⟨(C6_unknown_degradation (.int 100) "unknown_property").1 (by rfl),
   (C6_unknown_degradation (.str "not-a-number") "ph").2.2 (by rfl),
   (C6_unknown_degradation .none "ph").2.1 (by rfl)⟩

/-- C9: `classify_property` is case-insensitive in the property name —
classifying under any name gives the same result as classifying under its
lower-cased form (the source lower-cases the name before the threshold
lookup, and lower-casing is idempotent); in particular `"Nitrogen"` and
`"PH"` are recognized rather than yielding `Unknown`. -/
theorem C9_case_insensitive :
    (∀ (value : PyVal) (s : String),
      classify_property value s = classify_property value (pyLower s)) ∧
    classify_property (.float 3) "Nitrogen" = .ok "Moderate" ∧
    classify_property (.float 8) "PH" = .ok "High" := by
  refine ⟨fun value s => ?_, by rfl, by rfl⟩
  simp only [classify_property, pyLower_idem]

/-! ## Lemmas about the classification loop -/

theorem pyLookup_cons_ne {α : Type} {x : String × α} {rest : List (String × α)} {k : String}
    (h : x.1 ≠ k) : pyLookup (x :: rest) k = pyLookup rest k := by
  cases x with
  | mk k' v => simp [pyLookup, h]

theorem pyLookup_cons_eq {α : Type} {x : String × α} {rest : List (String × α)} {k : String}
    (h : x.1 = k) : pyLookup (x :: rest) k = some x.2 := by
  cases x with
  | mk k' v => simp_all [pyLookup]

theorem classifyFields_nil (prop : PyVal) : classifyFields prop [] = .ok [] := rfl

theorem classifyFields_cons_ok {prop : PyVal} {a c : String} {rest : List (String × String)}
    {P : List (String × PyVal)} :
    classifyFields prop ((a, c) :: rest) = .ok P ↔
    ∃ r Q, classifyField prop a c = .ok r ∧ classifyFields prop rest = .ok Q ∧
      P = r.toList ++ Q := by
  cases h1 : classifyField prop a c with
  | error e => simp [classifyFields, h1]
  | ok r =>
    cases h2 : classifyFields prop rest with
    | error e => simp [classifyFields, h1, h2]
    | ok Q => simp [classifyFields, h1, h2, eq_comm]

theorem classifyField_ok_some_key {prop : PyVal} {a c : String} {x : String × PyVal}
    (h : classifyField prop a c = .ok (some x)) : x.1 = c := by
  unfold classifyField at h
  repeat' split at h
  all_goals first
    | (cases h; rfl)
    | (cases h)

theorem classifyFields_lookup_none {prop : PyVal} :
    ∀ {l : List (String × String)} {P : List (String × PyVal)} {c : String},
      classifyFields prop l = .ok P → (∀ p ∈ l, p.2 ≠ c) →
      pyLookup P c = Option.none := by
  intro l
  induction l with
  | nil =>
    intro P c hP _
    rw [classifyFields_nil] at hP
    cases hP
    rfl
  | cons p rest ih =>
    intro P c hP hnot
    cases p with
    | mk a' c' =>
      obtain ⟨r, Q, h1, hQ, rfl⟩ := classifyFields_cons_ok.mp hP
      have hQnone : pyLookup Q c = Option.none :=
        ih hQ (fun p hp => hnot p (List.mem_cons_of_mem _ hp))
      cases r with
      | none => simpa using hQnone
      | some x =>
        have hx : x.1 = c' := classifyField_ok_some_key h1
        have hne : x.1 ≠ c := by
          rw [hx]
          exact hnot (a', c') (List.mem_cons_self _ _)
        simpa [pyLookup_cons_ne hne] using hQnone

theorem classifyFields_lookup_eq {prop : PyVal} :
    ∀ {l : List (String × String)} {P : List (String × PyVal)} {a c : String},
      classifyFields prop l = .ok P → (a, c) ∈ l →
      (∀ p ∈ l, p.2 = c → p.1 = a) →
      ∃ r, classifyField prop a c = .ok r ∧ pyLookup P c = Option.map Prod.snd r := by
  intro l
  induction l with
  | nil =>
    intro P a c _ hmem _
    cases hmem
  | cons p rest ih =>
    intro P a c hP hmem hkey
    cases p with
    | mk a' c' =>
      obtain ⟨r, Q, h1, hQ, rfl⟩ := classifyFields_cons_ok.mp hP
      by_cases hc : c' = c
      · have ha : a' = a := hkey (a', c') (List.mem_cons_self _ _) hc
        subst hc
        subst ha
        refine ⟨r, h1, ?_⟩
        cases r with
        | none =>
          by_cases hm2 : (a', c') ∈ rest
          · obtain ⟨r2, h2, hQc⟩ :=
              ih hQ hm2 (fun p hp => hkey p (List.mem_cons_of_mem _ hp))
            rw [h1] at h2
            cases h2
            simpa using hQc
          · have hnot : ∀ p ∈ rest, p.2 ≠ c' := by
              intro p hp hpc
              have hpa : p.1 = a' := hkey p (List.mem_cons_of_mem _ hp) hpc
              apply hm2
              have : p = (a', c') := by
                cases p
                simp_all
              rw [this] at hp
              exact hp
            simpa using classifyFields_lookup_none hQ hnot
        | some x =>
          have hx : x.1 = c' := classifyField_ok_some_key h1
          simp [pyLookup_cons_eq hx]
      · have hmem' : (a, c) ∈ rest := by
          rcases List.mem_cons.mp hmem with heq | hm
          · cases heq
            exact absurd rfl hc
          · exact hm
        obtain ⟨r2, h2, hQc⟩ :=
          ih hQ hmem' (fun p hp => hkey p (List.mem_cons_of_mem _ hp))
        refine ⟨r2, h2, ?_⟩
        cases r with
        | none => simpa using hQc
        | some x =>
          have hx : x.1 = c' := classifyField_ok_some_key h1
          have hne : x.1 ≠ c := by rw [hx]; exact hc
          simpa [pyLookup_cons_ne hne] using hQc

theorem classifyField_absent {pkvs : List (String × PyVal)} {a c : String}
    (h : pyLookup pkvs a = Option.none) :
    classifyField (.dict pkvs) a c = .ok Option.none := by
  unfold classifyField
  simp [pyContains, h]

theorem classifyField_empty {pkvs : List (String × PyVal)} {a c : String}
    (h : pyLookup pkvs a = some (.list [])) :
    classifyField (.dict pkvs) a c = .ok Option.none := by
  unfold classifyField
  simp [pyContains, pySubscriptS, pyTruthy, h]

theorem classifyField_cons {pkvs : List (String × PyVal)} {a c : String} {r0 : PyVal}
    {rest : List PyVal} (h : pyLookup pkvs a = some (.list (r0 :: rest))) :
    classifyField (.dict pkvs) a c =
      match extractVal r0 with
      | .error e => .error e
      | .ok value =>
        match classify_property value c with
        | .error e => .error e
        | .ok cl =>
          .ok (some (c, PyVal.dict [("value", value), ("classification", PyVal.str cl)])) := by
  unfold classifyField
  simp [pyContains, pySubscriptS, pyTruthy, pyLen, pySubscriptN, h]

theorem classifyField_congr {l1 l2 : List (String × PyVal)} {a c : String}
    (h : pyLookup l1 a = pyLookup l2 a) :
    classifyField (.dict l1) a c = classifyField (.dict l2) a c := by
  unfold classifyField
  simp only [pyContains, pySubscriptS, h]

theorem classifyFields_keys {prop : PyVal} :
    ∀ {l : List (String × String)} {P : List (String × PyVal)},
      classifyFields prop l = .ok P →
      ∀ x ∈ P, x.1 ∈ l.map Prod.snd := by
  intro l
  induction l with
  | nil =>
    intro P hP x hx
    rw [classifyFields_nil] at hP
    cases hP
    cases hx
  | cons p rest ih =>
    intro P hP x hx
    cases p with
    | mk a' c' =>
      obtain ⟨r, Q, h1, hQ, rfl⟩ := classifyFields_cons_ok.mp hP
      rcases List.mem_append.mp hx with hxr | hxQ
      · cases r with
        | none => cases hxr
        | some y =>
          have hy : y.1 = c' := classifyField_ok_some_key h1
          have : x = y := by simpa using hxr
          subst this
          simp [hy]
      · simp only [List.map_cons, List.mem_cons]
        exact Or.inr (ih hQ x hxQ)

theorem classifyFields_congr {l1 l2 : List (String × PyVal)} :
    ∀ (l : List (String × String)),
      (∀ p ∈ l, pyLookup l1 p.1 = pyLookup l2 p.1) →
      classifyFields (.dict l1) l = classifyFields (.dict l2) l := by
  intro l
  induction l with
  | nil => intro _; rfl
  | cons p rest ih =>
    intro h
    cases p with
    | mk a c =>
      have hhead : pyLookup l1 a = pyLookup l2 a := h (a, c) (List.mem_cons_self _ _)
      have hrest := ih (fun p hp => h p (List.mem_cons_of_mem _ hp))
      show classifyFields (.dict l1) ((a, c) :: rest) = classifyFields (.dict l2) ((a, c) :: rest)
      unfold classifyFields
      rw [classifyField_congr hhead, hrest]

theorem pyFloat_error_cases {v : PyVal} {e : PyErr} (h : pyFloat v = .error e) :
    e = .typeError ∨ e = .valueError ∨ e = .overflowError := by
  cases v with
  | none => cases h; exact Or.inl rfl
  | bool b => cases h
  | int i =>
    simp only [pyFloat] at h
    split at h
    · cases h
    · cases h; exact Or.inr (Or.inr rfl)
  | float q => cases h
  | str s =>
    simp only [pyFloat] at h
    cases hp : parseFloat s with
    | some q => rw [hp] at h; cases h
    | none => rw [hp] at h; cases h; exact Or.inr (Or.inl rfl)
  | list xs => cases h; exact Or.inl rfl
  | dict kvs => cases h; exact Or.inl rfl

theorem classify_property_ok_of_noOverflow {v : PyVal} (c : String)
    (h : floatNoOverflow v = true) : ∃ b, classify_property v c = .ok b := by
  unfold classify_property
  cases hl : pyLookup THRESHOLDS (pyLower c) with
  | none => exact ⟨"Unknown", rfl⟩
  | some p =>
    cases p with
    | mk low high =>
      cases hf : pyFloat v with
      | ok q => exact ⟨_, rfl⟩
      | error e =>
        rcases pyFloat_error_cases hf with rfl | rfl | rfl
        · exact ⟨"Unknown", rfl⟩
        · exact ⟨"Unknown", rfl⟩
        · unfold floatNoOverflow at h
          rw [hf] at h
          cases h

theorem classifyField_ok_of_good {pkvs : List (String × PyVal)} {a : String} (c : String)
    (hg : ∀ pv, pyLookup pkvs a = some pv → goodRecords pv = true) :
    ∃ r, classifyField (.dict pkvs) a c = .ok r := by
  cases hp : pyLookup pkvs a with
  | none => exact ⟨Option.none, classifyField_absent hp⟩
  | some pv =>
    have hgood := hg pv hp
    cases pv with
    | list xs =>
      cases xs with
      | nil => exact ⟨Option.none, classifyField_empty hp⟩
      | cons r0 rest' =>
        cases r0 with
        | dict kvs1 =>
          simp only [goodRecords] at hgood
          cases hv1 : pyLookup kvs1 "value" with
          | none => rw [hv1] at hgood; cases hgood
          | some v1 =>
            rw [hv1] at hgood
            cases v1 with
            | dict kvs2 =>
              simp only [] at hgood
              cases hv2 : pyLookup kvs2 "value" with
              | none => rw [hv2] at hgood; cases hgood
              | some v =>
                rw [hv2] at hgood
                obtain ⟨b, hb⟩ := classify_property_ok_of_noOverflow c hgood
                refine ⟨some (c, PyVal.dict [("value", v), ("classification", PyVal.str b)]), ?_⟩
                have hex : extractVal (.dict kvs1) = .ok v := by
                  unfold extractVal
                  simp [pySubscriptS, hv1, hv2]
                simp only [classifyField_cons hp, hex, hb]
            | none => cases hgood
            | bool b => cases hgood
            | int i => cases hgood
            | float q => cases hgood
            | str s => cases hgood
            | list ys => cases hgood
        | none => simp [goodRecords] at hgood
        | bool b => simp [goodRecords] at hgood
        | int i => simp [goodRecords] at hgood
        | float q => simp [goodRecords] at hgood
        | str s => simp [goodRecords] at hgood
        | list ys => simp [goodRecords] at hgood
    | none => cases hgood
    | bool b => cases hgood
    | int i => cases hgood
    | float q => cases hgood
    | str s => cases hgood
    | dict kvs1 => cases hgood

theorem classifyFields_ok_of_good {pkvs : List (String × PyVal)} :
    ∀ l : List (String × String),
      (∀ p ∈ l, ∀ pv, pyLookup pkvs p.1 = some pv → goodRecords pv = true) →
      ∃ Q, classifyFields (.dict pkvs) l = .ok Q := by
  intro l
  induction l with
  | nil => intro _; exact ⟨[], rfl⟩
  | cons p rest ih =>
    intro h
    cases p with
    | mk a c =>
      obtain ⟨r, hr⟩ := classifyField_ok_of_good c (h (a, c) (List.mem_cons_self _ _))
      obtain ⟨Q, hQ⟩ := ih (fun p hp => h p (List.mem_cons_of_mem _ hp))
      refine ⟨r.toList ++ Q, ?_⟩
      show classifyFields (.dict pkvs) ((a, c) :: rest) = .ok (r.toList ++ Q)
      unfold classifyFields
      rw [hr, hQ]

theorem classifyFields_all_absent {pkvs : List (String × PyVal)} :
    ∀ l : List (String × String),
      (∀ p ∈ l, pyLookup pkvs p.1 = Option.none) →
      classifyFields (.dict pkvs) l = .ok [] := by
  intro l
  induction l with
  | nil => intro _; rfl
  | cons p rest ih =>
    intro h
    cases p with
    | mk a c =>
      show classifyFields (.dict pkvs) ((a, c) :: rest) = .ok []
      unfold classifyFields
      rw [classifyField_absent (h (a, c) (List.mem_cons_self _ _)),
        ih (fun p hp => h p (List.mem_cons_of_mem _ hp))]
      rfl

/-! ## Claims about `classify_soil_data` (C4, C5, C10) -/

/-- C4 (counterexample): the claim says `classify_soil_data` never raises
for any payload, but on a payload whose `ph` field is present and non-empty
while its first record lacks the inner `"value"` key, the unguarded
extraction `property_data[0]["value"]["value"]` raises `KeyError`. -/
theorem C4_counterexample :
    classify_soil_data (.dict [("property", .dict
      [("ph", .list [.dict [("value", .dict [])]])])]) = .error .keyError := by rfl

/-- C4 (amended): `classify_soil_data` returns a classified profile without
raising on every well-formed payload — one whose `"property"` entry, when
present, is a dict in which each of the four consulted raw fields is absent
or is a measurement list that is empty or whose first record carries the
expected nested `value`/`value` structure (with an overflow-free scalar).
Missing fields degrade to omission; but a present, malformed record raises
(`C4_counterexample`) rather than degrading. -/
theorem C4_no_raise_on_wellformed :
    ∀ d : PyVal, wellFormedPayload d = true → ∃ P, classify_soil_data d = .ok P := by
  intro d h
  cases d
  case dict kvs =>
    cases hp : pyLookup kvs "property" with
    | none =>
      refine ⟨[], ?_⟩
      show classifyFields (dictGetD kvs "property" (.dict [])) property_mapping = .ok []
      rw [show dictGetD kvs "property" (.dict []) = .dict [] from by simp [dictGetD, hp]]
      rfl
    | some pv =>
      simp only [wellFormedPayload, hp] at h
      cases pv
      case dict pkvs =>
        have hgood : ∀ p ∈ property_mapping, ∀ pv', pyLookup pkvs p.1 = some pv' →
            goodRecords pv' = true := by
          intro p hpmem pv' hlook
          have hf : p.1 ∈ rawFields := List.mem_map_of_mem Prod.fst hpmem
          have hall := List.all_eq_true.mp h p.1 hf
          rw [hlook] at hall
          exact hall
        obtain ⟨P, hP⟩ := classifyFields_ok_of_good property_mapping hgood
        refine ⟨P, ?_⟩
        show classifyFields (dictGetD kvs "property" (.dict [])) property_mapping = .ok P
        rw [show dictGetD kvs "property" (.dict []) = .dict pkvs from by simp [dictGetD, hp]]
        exact hP
      all_goals simp_all
  all_goals simp_all [wellFormedPayload]

/-- C4 (witness): the specification's reference payload is well-formed and
classifies without error, by `C4_no_raise_on_wellformed`. -/
theorem C4_no_raise_on_wellformed_witness :
    ∃ P, classify_soil_data (.dict [("property", .dict
      [("nitrogen_total", .list [.dict [("value", .dict [("value", .float 3)])]]),
       ("phosphorous_extractable", .list [.dict [("value", .dict [("value", .int 60)])]]),
       ("potassium_extractable", .list [.dict [("value", .dict [("value", .int 20)])]]),
       ("ph", .list [.dict [("value", .dict [("value", .float (mkRat 53 10))])]])])]) =
      .ok P :=
  C4_no_raise_on_wellformed _ (by rfl)

/-- C5: relative to the profile that `classify_soil_data` returns (when it
returns one), a mapped raw field that is absent from the property dict, or
present with an empty measurement list, contributes no entry under its
canonical name; a field present with a non-empty measurement list always
contributes an entry holding the first record's extracted value and that
value's classification band. -/
theorem C5_omission_vs_presence :
    ∀ (kvs pkvs P : List (String × PyVal)),
      dictGetD kvs "property" (.dict []) = .dict pkvs →
      classify_soil_data (.dict kvs) = .ok P →
      ∀ a c : String, (a, c) ∈ property_mapping →
        ((pyLookup pkvs a = Option.none ∨ pyLookup pkvs a = some (.list [])) →
          pyLookup P c = Option.none) ∧
        (∀ (r0 : PyVal) (rest : List PyVal),
          pyLookup pkvs a = some (.list (r0 :: rest)) →
          ∃ v b, extractVal r0 = .ok v ∧ classify_property v c = .ok b ∧
            pyLookup P c = some (.dict [("value", v), ("classification", PyVal.str b)])) := by
  intro kvs pkvs P hprop hP a c hmem
  have hP' : classifyFields (.dict pkvs) property_mapping = .ok P := by
    have hdef : classify_soil_data (.dict kvs) =
        classifyFields (dictGetD kvs "property" (.dict [])) property_mapping := rfl
    rw [hdef, hprop] at hP
    exact hP
  have hkey : ∀ p ∈ property_mapping, p.2 = c → p.1 = a := by
    simp only [property_mapping, List.mem_cons, List.not_mem_nil, or_false] at hmem
    rcases hmem with h | h | h | h <;>
      (cases h; intro p hp hpc;
       simp only [property_mapping, List.mem_cons, List.not_mem_nil, or_false] at hp;
       rcases hp with h | h | h | h <;> (cases h; simp_all))
  constructor
  · intro habs
    have hf : classifyField (.dict pkvs) a c = .ok Option.none := by
      rcases habs with h | h
      · exact classifyField_absent h
      · exact classifyField_empty h
    obtain ⟨r, hr, hPc⟩ := classifyFields_lookup_eq hP' hmem hkey
    rw [hf] at hr
    cases hr
    simpa using hPc
  · intro r0 rest hcons
    obtain ⟨r, hr, hPc⟩ := classifyFields_lookup_eq hP' hmem hkey
    rw [classifyField_cons hcons] at hr
    cases hex : extractVal r0 with
    | error e => rw [hex] at hr; cases hr
    | ok v =>
      rw [hex] at hr
      simp only [] at hr
      cases hcl : classify_property v c with
      | error e => rw [hcl] at hr; cases hr
      | ok b =>
        rw [hcl] at hr
        simp only [] at hr
        cases hr
        exact ⟨v, b, rfl, hcl, by simpa using hPc⟩

/-- C5 (witness): on a payload where `nitrogen_total` has one record of
value 3.0 and `potassium_extractable` is an empty list, the profile (via
`C5_omission_vs_presence`) has no `potassium` key, no `ph` key, and a
`nitrogen` entry with value 3.0 and band `Moderate`. -/
theorem C5_omission_vs_presence_witness :
    pyLookup [("nitrogen", PyVal.dict
        [("value", PyVal.float 3), ("classification", PyVal.str "Moderate")])]
      "potassium" = Option.none ∧
    pyLookup [("nitrogen", PyVal.dict
        [("value", PyVal.float 3), ("classification", PyVal.str "Moderate")])]
      "nitrogen" = some (PyVal.dict
        [("value", PyVal.float 3), ("classification", PyVal.str "Moderate")]) := by
  refine ⟨(C5_omission_vs_presence
      [("property", .dict
        [("nitrogen_total", .list [.dict [("value", .dict [("value", .float 3)])]]),
         ("potassium_extractable", .list [])])]
      [("nitrogen_total", .list [.dict [("value", .dict [("value", .float 3)])]]),
       ("potassium_extractable", .list [])]
      [("nitrogen", PyVal.dict
        [("value", PyVal.float 3), ("classification", PyVal.str "Moderate")])]
      (by rfl) (by rfl) "potassium_extractable" "potassium"
      (by simp [property_mapping])).1 (Or.inr (by rfl)), ?_⟩
  obtain ⟨v, b, hex, hcl, hfound⟩ := (C5_omission_vs_presence
      [("property", .dict
        [("nitrogen_total", .list [.dict [("value", .dict [("value", .float 3)])]]),
         ("potassium_extractable", .list [])])]
      [("nitrogen_total", .list [.dict [("value", .dict [("value", .float 3)])]]),
       ("potassium_extractable", .list [])]
      [("nitrogen", PyVal.dict
        [("value", PyVal.float 3), ("classification", PyVal.str "Moderate")])]
      (by rfl) (by rfl) "nitrogen_total" "nitrogen"
      (by simp [property_mapping])).2 (.dict [("value", .dict [("value", .float 3)])]) []
      (by rfl)
  have hv : v = PyVal.float 3 := by
    rw [show extractVal (.dict [("value", .dict [("value", PyVal.float 3)])]) =
        .ok (PyVal.float 3) from rfl] at hex
    cases hex
    rfl
  subst hv
  have hb : b = "Moderate" := by
    rw [show classify_property (PyVal.float 3) "nitrogen" = .ok "Moderate" from by rfl] at hcl
    cases hcl
    rfl
  subst hb
  exact hfound

/-- C10: a payload with no `"property"` key, or whose property dict
contains none of the four recognized raw fields, classifies to the empty
profile without error; every profile key is one of the four canonical
names; and unrecognized extra fields — in the property dict or at the top
level — never appear in the output and never change it. -/
theorem C10_unrecognized_fields :
    (∀ kvs : List (String × PyVal), pyLookup kvs "property" = Option.none →
      classify_soil_data (.dict kvs) = .ok []) ∧
    (∀ (kvs pkvs : List (String × PyVal)),
      pyLookup kvs "property" = some (.dict pkvs) →
      (∀ f ∈ rawFields, pyLookup pkvs f = Option.none) →
      classify_soil_data (.dict kvs) = .ok []) ∧
    (∀ (kvs P : List (String × PyVal)), classify_soil_data (.dict kvs) = .ok P →
      ∀ x ∈ P, x.1 ∈ canonicalNames) ∧
    (∀ (pkvs : List (String × PyVal)) (k : String) (v : PyVal), k ∉ rawFields →
      classify_soil_data (.dict [("property", .dict ((k, v) :: pkvs))]) =
        classify_soil_data (.dict [("property", .dict pkvs)])) ∧
    (∀ (kvs : List (String × PyVal)) (k : String) (v : PyVal), k ≠ "property" →
      classify_soil_data (.dict ((k, v) :: kvs)) = classify_soil_data (.dict kvs)) := by
  refine ⟨?_, ?_, ?_, ?_, ?_⟩
  · intro kvs hp
    show classifyFields (dictGetD kvs "property" (.dict [])) property_mapping = .ok []
    rw [show dictGetD kvs "property" (.dict []) = .dict [] from by simp [dictGetD, hp]]
    rfl
  · intro kvs pkvs hp habs
    show classifyFields (dictGetD kvs "property" (.dict [])) property_mapping = .ok []
    rw [show dictGetD kvs "property" (.dict []) = .dict pkvs from by simp [dictGetD, hp]]
    exact classifyFields_all_absent property_mapping
      (fun p hpm => habs p.1 (List.mem_map_of_mem Prod.fst hpm))
  · intro kvs P hP x hx
    have hP' : classifyFields (dictGetD kvs "property" (.dict [])) property_mapping =
        .ok P := hP
    exact classifyFields_keys hP' x hx
  · intro pkvs k v hk
    show classifyFields (.dict ((k, v) :: pkvs)) property_mapping =
      classifyFields (.dict pkvs) property_mapping
    apply classifyFields_congr
    intro p hpm
    have hne : k ≠ p.1 := by
      intro heq
      exact hk (heq ▸ List.mem_map_of_mem Prod.fst hpm)
    exact pyLookup_cons_ne (x := (k, v)) hne
  · intro kvs k v hk
    show classifyFields (dictGetD ((k, v) :: kvs) "property" (.dict [])) property_mapping =
      classifyFields (dictGetD kvs "property" (.dict [])) property_mapping
    rw [show dictGetD ((k, v) :: kvs) "property" (.dict []) =
        dictGetD kvs "property" (.dict []) from by
      simp [dictGetD, pyLookup_cons_ne (x := (k, v)) hk]]

/-- C10 (witness): concrete instances via `C10_unrecognized_fields`: the
empty payload and a payload whose property dict holds only an unrecognized
field both classify to the empty profile, and prepending an unrecognized
field leaves a classification unchanged. -/
theorem C10_unrecognized_fields_witness :
    classify_soil_data (.dict []) = .ok [] ∧
    classify_soil_data (.dict [("property", .dict [("texture", .int 7)])]) = .ok [] ∧
    classify_soil_data (.dict [("property", .dict
      [("bulk_density", .float 1), ("ph", .list [.dict [("value", .dict
        [("value", .float 8)])]])])]) =
      classify_soil_data (.dict [("property", .dict
        [("ph", .list [.dict [("value", .dict [("value", .float 8)])]])])]) :=
  ⟨C10_unrecognized_fields.1 [] (by rfl),
   C10_unrecognized_fields.2.1 [("property", .dict [("texture", .int 7)])]
     [("texture", .int 7)] (by rfl)
     (by intro f hf
         simp only [rawFields, property_mapping, List.map_cons, List.map_nil,
           List.mem_cons, List.not_mem_nil, or_false] at hf
         rcases hf with rfl | rfl | rfl | rfl <;> rfl),
   C10_unrecognized_fields.2.2.2.1
     [("ph", .list [.dict [("value", .dict [("value", .float 8)])]])]
     "bulk_density" (.float 1) (by decide)⟩

/-! ## Lemmas about `authenticate` and the claims on the soil client
(C2, C3, C7, C8) -/

theorem authenticate_events (login : HttpResult) (now : Rat) (s : Session) :
    (authenticate login now s).events = [Event.postLogin] := by
  cases login with
  | transportErr => rfl
  | resp r =>
    simp only [authenticate]
    split
    · rfl
    · cases hb : r.jsonBody with
      | none => rfl
      | some j => cases j <;> rfl

theorem authenticate_error_attr {login : HttpResult} {now : Rat} {s : Session} {e : PyErr}
    (h : (authenticate login now s).success = .error e) : e = .attributeError := by
  cases login with
  | transportErr => cases h
  | resp r =>
    simp only [authenticate] at h
    split at h
    · cases h
    · cases hb : r.jsonBody with
      | none => rw [hb] at h; cases h
      | some j => rw [hb] at h; cases j <;> cases h <;> rfl

theorem authenticate_prints_of_false {login : HttpResult} {now : Rat} {s : Session}
    (h : (authenticate login now s).success = .ok false) :
    (authenticate login now s).prints ≠ [] := by
  cases login with
  | transportErr => simp [authenticate]
  | resp r =>
    simp only [authenticate] at h ⊢
    split at h
    · split
      · simp
      · simp_all
    · rw [if_neg (by assumption)]
      cases hb : r.jsonBody with
      | none => simp
      | some j =>
        rw [hb] at h
        cases j <;> cases h

theorem handleFinal_ok (r : HttpResponse) : ∃ o, (handleFinal r).2 = .ok o := by
  unfold handleFinal
  split
  · exact ⟨Option.none, rfl⟩
  · cases r.jsonBody with
    | none => exact ⟨Option.none, rfl⟩
    | some j => exact ⟨some j, rfl⟩

theorem handleFinal_prints_of_raise {r : HttpResponse} (h : raiseForStatus r = true) :
    (handleFinal r).1 ≠ [] ∧ (handleFinal r).2 = .ok Option.none := by
  unfold handleFinal
  rw [if_pos h]
  exact ⟨by simp, rfl⟩

/-- C3 (counterexample): the claim says a malformed login response body —
including a JSON object with no `access_token` field — makes
`authenticate` return `False` with the session untouched.  But on a 200
response whose JSON body is the empty object, `token_data.get("access_token")`
is `None`, and `authenticate` returns `True` while overwriting a previously
stored token with `None` and resetting the expiry. -/
theorem C3_counterexample :
    (authenticate (.resp ⟨200, some (.dict [])⟩) 0
        ⟨.str "oldtoken", some 50⟩).success = .ok true ∧
    (authenticate (.resp ⟨200, some (.dict [])⟩) 0
        ⟨.str "oldtoken", some 50⟩).session =
      ⟨.none, some ((0 : Rat) + 3600)⟩ := by
  constructor
  · rfl
  · rfl

/-- C3 (amended): on the `RequestException`-style failures — transport
error, 4xx/5xx login status, or a response body that is not valid JSON —
`authenticate` returns `False` and leaves the session exactly as it was
(no token cleared or overwritten).  A 2xx response whose JSON body is an
object without `access_token` is however treated as success
(`C3_counterexample`): it returns `True` and overwrites the session. -/
theorem C3_failure_leaves_session (login : HttpResult) (now : Rat) (s : Session) :
    (login = .transportErr →
      (authenticate login now s).success = .ok false ∧
      (authenticate login now s).session = s) ∧
    (∀ r : HttpResponse, login = .resp r → raiseForStatus r = true →
      (authenticate login now s).success = .ok false ∧
      (authenticate login now s).session = s) ∧
    (∀ r : HttpResponse, login = .resp r → raiseForStatus r = false →
      r.jsonBody = Option.none →
      (authenticate login now s).success = .ok false ∧
      (authenticate login now s).session = s) := by
  refine ⟨fun h => ?_, fun r h hs => ?_, fun r h hs hb => ?_⟩
  · subst h
    exact ⟨rfl, rfl⟩
  · subst h
    simp only [authenticate]
    rw [if_pos hs]
    exact ⟨rfl, rfl⟩
  · subst h
    simp only [authenticate]
    rw [if_neg (by rw [hs]; exact Bool.false_ne_true), hb]
    exact ⟨rfl, rfl⟩

/-- C3 (witness): concrete instances of the three failure modes of
`C3_failure_leaves_session`, each returning `False` and preserving the
session `⟨"tok", 99⟩`. -/
theorem C3_failure_leaves_session_witness :
    ((authenticate .transportErr 0 ⟨.str "tok", some 99⟩).success = .ok false ∧
      (authenticate .transportErr 0 ⟨.str "tok", some 99⟩).session =
        ⟨.str "tok", some 99⟩) ∧
    ((authenticate (.resp ⟨500, some (.dict [])⟩) 0 ⟨.str "tok", some 99⟩).success =
        .ok false ∧
      (authenticate (.resp ⟨500, some (.dict [])⟩) 0 ⟨.str "tok", some 99⟩).session =
        ⟨.str "tok", some 99⟩) ∧
    ((authenticate (.resp ⟨200, Option.none⟩) 0 ⟨.str "tok", some 99⟩).success =
        .ok false ∧
      (authenticate (.resp ⟨200, Option.none⟩) 0 ⟨.str "tok", some 99⟩).session =
        ⟨.str "tok", some 99⟩) :=
  ⟨(C3_failure_leaves_session .transportErr 0 ⟨.str "tok", some 99⟩).1 rfl,
   (C3_failure_leaves_session (.resp ⟨500, some (.dict [])⟩) 0
      ⟨.str "tok", some 99⟩).2.1 ⟨500, some (.dict [])⟩ rfl (by rfl),
   (C3_failure_leaves_session (.resp ⟨200, Option.none⟩) 0
      ⟨.str "tok", some 99⟩).2.2 ⟨200, Option.none⟩ rfl (by rfl) rfl⟩

/-- C2: when the first GET comes back 401, `authenticate()` is called
exactly once (one login POST in the trace, in every sub-case, including a
propagating authenticate error); if it returns `True`, the identical GET —
same URL, same `lon`/`lat`/`depth` query parameters — is issued exactly
once more (two identical GET entries in the trace); if it returns `False`,
the call returns the no-data result `None` immediately and the trace holds
exactly the one original GET. -/
theorem C2_one_shot_retry :
    ∀ (env : NetEnv) (now : Rat) (s : Session) (lat lon : Rat) (r1 : HttpResponse),
      env.getResult1 = .resp r1 → r1.status = 401 →
      loginCount (fetch_soil_properties env now s lat lon).events = 1 ∧
      ((authenticate env.loginResult now s).success = .ok true →
        getCalls (fetch_soil_properties env now s lat lon).events =
          [(soil_url, lon, lat, "0-20"), (soil_url, lon, lat, "0-20")]) ∧
      ((authenticate env.loginResult now s).success = .ok false →
        (fetch_soil_properties env now s lat lon).result = .ok Option.none ∧
        getCalls (fetch_soil_properties env now s lat lon).events =
          [(soil_url, lon, lat, "0-20")]) := by
  intro env now s lat lon r1 h1 h401
  simp only [fetch_soil_properties, h1, h401, reduceIte]
  cases ha : (authenticate env.loginResult now s).success with
  | error e =>
    refine ⟨?_, fun htrue => ?_, fun hfalse => ?_⟩
    · simp [loginCount, authenticate_events]
    · cases htrue
    · cases hfalse
  | ok b =>
    cases b with
    | false =>
      refine ⟨?_, fun htrue => ?_, fun _ => ?_⟩
      · simp [loginCount, authenticate_events]
      · cases htrue
      · exact ⟨rfl, by simp [getCalls, authenticate_events]⟩
    | true =>
      cases hg2 : env.getResult2 with
      | transportErr =>
        refine ⟨?_, fun _ => ?_, fun hfalse => ?_⟩
        · simp [loginCount, authenticate_events]
        · simp [getCalls, authenticate_events]
        · cases hfalse
      | resp r2 =>
        refine ⟨?_, fun _ => ?_, fun hfalse => ?_⟩
        · simp [loginCount, authenticate_events]
        · simp [getCalls, authenticate_events]
        · cases hfalse

/-- C2 (witness): a concrete 401 on the first GET followed by a failed
re-authentication (transport error on the login POST), via
`C2_one_shot_retry`: one login POST, the result is `None`, and exactly one
GET was issued. -/
theorem C2_one_shot_retry_witness :
    loginCount (fetch_soil_properties
      ⟨.transportErr, .resp ⟨401, Option.none⟩, .transportErr⟩ 0
      ⟨.none, Option.none⟩ 1 2).events = 1 ∧
    (fetch_soil_properties ⟨.transportErr, .resp ⟨401, Option.none⟩, .transportErr⟩ 0
      ⟨.none, Option.none⟩ 1 2).result = .ok Option.none ∧
    getCalls (fetch_soil_properties
      ⟨.transportErr, .resp ⟨401, Option.none⟩, .transportErr⟩ 0
      ⟨.none, Option.none⟩ 1 2).events = [(soil_url, 2, 1, "0-20")] := by
  refine ⟨(C2_one_shot_retry ⟨.transportErr, .resp ⟨401, Option.none⟩, .transportErr⟩ 0
      ⟨.none, Option.none⟩ 1 2 ⟨401, Option.none⟩ rfl rfl).1, ?_, ?_⟩
  · exact ((C2_one_shot_retry ⟨.transportErr, .resp ⟨401, Option.none⟩, .transportErr⟩ 0
      ⟨.none, Option.none⟩ 1 2 ⟨401, Option.none⟩ rfl rfl).2.2 (by rfl)).1
  · exact ((C2_one_shot_retry ⟨.transportErr, .resp ⟨401, Option.none⟩, .transportErr⟩ 0
      ⟨.none, Option.none⟩ 1 2 ⟨401, Option.none⟩ rfl rfl).2.2 (by rfl)).2

/-- C7: `fetch_soil_properties` never authenticates before its first GET:
in every environment the first trace entry is the GET with the currently
stored token (whatever it is, possibly `None`), and a login POST occurs in
the trace only if the first GET's response had status 401. -/
theorem C7_no_proactive_auth :
    ∀ (env : NetEnv) (now : Rat) (s : Session) (lat lon : Rat),
      (fetch_soil_properties env now s lat lon).events.head? =
        some (Event.getSoil soil_url lon lat "0-20" s.access_token) ∧
      (loginCount (fetch_soil_properties env now s lat lon).events ≠ 0 →
        ∃ r1, env.getResult1 = .resp r1 ∧ r1.status = 401) := by
  intro env now s lat lon
  cases hg1 : env.getResult1 with
  | transportErr =>
    constructor
    · simp [fetch_soil_properties, hg1]
    · intro hn
      exfalso
      apply hn
      simp [fetch_soil_properties, hg1, loginCount]
  | resp r1 =>
    by_cases h401 : r1.status = 401
    · constructor
      · simp only [fetch_soil_properties, hg1, h401, reduceIte]
        cases ha : (authenticate env.loginResult now s).success with
        | error e => rfl
        | ok b => cases b <;> first | rfl | (cases hg2 : env.getResult2 <;> rfl)
      · intro _
        exact ⟨r1, rfl, h401⟩
    · constructor
      · simp [fetch_soil_properties, hg1, h401]
      · intro hn
        exfalso
        apply hn
        simp [fetch_soil_properties, hg1, h401, loginCount]

/-- C7 (witness): in an environment whose first GET yields a 401,
`C7_no_proactive_auth` instantiates to: the first trace entry is the GET
carrying the stored (`None`) token, and the login in the trace is indeed
explained by a 401 first response. -/
theorem C7_no_proactive_auth_witness :
    (fetch_soil_properties ⟨.transportErr, .resp ⟨401, Option.none⟩, .transportErr⟩ 0
        ⟨.none, Option.none⟩ 1 2).events.head? =
      some (Event.getSoil soil_url 2 1 "0-20" PyVal.none) ∧
    ∃ r1, (⟨.transportErr, .resp ⟨401, Option.none⟩, .transportErr⟩ : NetEnv).getResult1 =
        .resp r1 ∧ r1.status = 401 :=
  ⟨(C7_no_proactive_auth ⟨.transportErr, .resp ⟨401, Option.none⟩, .transportErr⟩ 0
      ⟨.none, Option.none⟩ 1 2).1,
   (C7_no_proactive_auth ⟨.transportErr, .resp ⟨401, Option.none⟩, .transportErr⟩ 0
      ⟨.none, Option.none⟩ 1 2).2 (by decide)⟩

/-- C8 (counterexample): the claim says no exception ever propagates to the
caller, but when the first GET yields 401 and the login POST of the retry
path returns 2xx with a JSON body that is not an object (here the number
5), `token_data.get(...)` raises `AttributeError`, which the
`except requests.exceptions.RequestException` handler does not catch, so
`fetch_soil_properties` raises instead of returning a failure result. -/
theorem C8_counterexample :
    (fetch_soil_properties ⟨.resp ⟨200, some (.int 5)⟩, .resp ⟨401, Option.none⟩,
        .transportErr⟩ 0 ⟨.none, Option.none⟩ 1 2).result = .error .attributeError := by
  rfl

/-- C8 (amended): on every listed failure mode — transport error on the
first GET, a 4xx/5xx non-401 first status, a failed (returning-`False`)
re-authentication after a 401, a transport error on the retried GET, and a
4xx/5xx status on the retried GET — `fetch_soil_properties` returns the
explicit no-data result `None` with a non-empty printed diagnostic; and the
only exception that can propagate is the `AttributeError` of the 401-path
login body (`C8_counterexample`), never a `RequestException`-style network
error. -/
theorem C8_failure_reporting :
    ∀ (env : NetEnv) (now : Rat) (s : Session) (lat lon : Rat),
      (env.getResult1 = .transportErr →
        (fetch_soil_properties env now s lat lon).result = .ok Option.none ∧
        (fetch_soil_properties env now s lat lon).prints ≠ []) ∧
      (∀ r1, env.getResult1 = .resp r1 → r1.status ≠ 401 → raiseForStatus r1 = true →
        (fetch_soil_properties env now s lat lon).result = .ok Option.none ∧
        (fetch_soil_properties env now s lat lon).prints ≠ []) ∧
      (∀ r1, env.getResult1 = .resp r1 → r1.status = 401 →
        (authenticate env.loginResult now s).success = .ok false →
        (fetch_soil_properties env now s lat lon).result = .ok Option.none ∧
        (fetch_soil_properties env now s lat lon).prints ≠ []) ∧
      (∀ r1, env.getResult1 = .resp r1 → r1.status = 401 →
        (authenticate env.loginResult now s).success = .ok true →
        env.getResult2 = .transportErr →
        (fetch_soil_properties env now s lat lon).result = .ok Option.none ∧
        (fetch_soil_properties env now s lat lon).prints ≠ []) ∧
      (∀ r1 r2, env.getResult1 = .resp r1 → r1.status = 401 →
        (authenticate env.loginResult now s).success = .ok true →
        env.getResult2 = .resp r2 → raiseForStatus r2 = true →
        (fetch_soil_properties env now s lat lon).result = .ok Option.none ∧
        (fetch_soil_properties env now s lat lon).prints ≠ []) ∧
      (∀ e, (fetch_soil_properties env now s lat lon).result = .error e →
        e = .attributeError) := by
  intro env now s lat lon
  refine ⟨?_, ?_, ?_, ?_, ?_, ?_⟩
  · intro h
    simp only [fetch_soil_properties, h]
    exact ⟨by trivial, by simp⟩
  · intro r1 h1 hn401 hrs
    simp only [fetch_soil_properties, h1]
    rw [if_neg hn401]
    exact ⟨(handleFinal_prints_of_raise hrs).2, (handleFinal_prints_of_raise hrs).1⟩
  · intro r1 h1 h401 hauth
    simp only [fetch_soil_properties, h1, h401, reduceIte, hauth]
    exact ⟨by trivial, authenticate_prints_of_false hauth⟩
  · intro r1 h1 h401 hauth hg2
    simp only [fetch_soil_properties, h1, h401, reduceIte, hauth, hg2]
    exact ⟨by trivial, by simp⟩
  · intro r1 r2 h1 h401 hauth hg2 hrs
    simp only [fetch_soil_properties, h1, h401, reduceIte, hauth, hg2]
    refine ⟨(handleFinal_prints_of_raise hrs).2, ?_⟩
    intro hnil
    exact (handleFinal_prints_of_raise hrs).1 (List.append_eq_nil.mp hnil).2
  · intro e he
    cases hg1 : env.getResult1 with
    | transportErr =>
      simp only [fetch_soil_properties, hg1] at he
      cases he
    | resp r1 =>
      by_cases h401 : r1.status = 401
      · simp only [fetch_soil_properties, hg1, h401, reduceIte] at he
        cases ha : (authenticate env.loginResult now s).success with
        | error e' =>
          simp only [ha] at he
          cases he
          exact authenticate_error_attr ha
        | ok b =>
          cases b with
          | false =>
            simp only [ha] at he
            cases he
          | true =>
            cases hg2 : env.getResult2 with
            | transportErr =>
              simp only [ha, hg2] at he
              cases he
            | resp r2 =>
              simp only [ha, hg2] at he
              obtain ⟨o, ho⟩ := handleFinal_ok r2
              rw [ho] at he
              cases he
      · simp only [fetch_soil_properties, hg1] at he
        rw [if_neg h401] at he
        simp only [] at he
        obtain ⟨o, ho⟩ := handleFinal_ok r1
        rw [ho] at he
        cases he

/-- C8 (witness): a transport error on the first GET, via
`C8_failure_reporting`: the result is the no-data `None` and a diagnostic
was printed. -/
theorem C8_failure_reporting_witness :
    (fetch_soil_properties ⟨.transportErr, .transportErr, .transportErr⟩ 0
        ⟨.none, Option.none⟩ 1 2).result = .ok Option.none ∧
    (fetch_soil_properties ⟨.transportErr, .transportErr, .transportErr⟩ 0
        ⟨.none, Option.none⟩ 1 2).prints ≠ [] :=
  (C8_failure_reporting ⟨.transportErr, .transportErr, .transportErr⟩ 0
    ⟨.none, Option.none⟩ 1 2).1 rfl
